import Mathlib

/-!
Shallow embedding of `src/app.py` (a Streamlit LLM consultation app) and
proofs of the spec's testable properties about its core functions:
`get_api_key`, `get_llm`, `build_system_prompt`, `ask_llm`.

Modelling choices, stated once:
* Python exceptions become `Except String α`; the string is the exception
  message (`ValueError` text, or the upstream client's diagnostic text).
* The credential environment is the pair of the two external read-only
  sources consulted by `get_api_key`: the value of the process environment
  variable `OPENAI_API_KEY` after `load_dotenv()` (an `Option String`,
  `none` when unset), and the entry of `st.secrets` under the key
  `OPENAI_API_KEY` (an `Option String`, `none` when the key is absent).
* `@st.cache_resource` on the zero-argument `get_llm` is a single
  process-wide cache slot holding the constructed client, modelled as
  explicit state passing of a `ProcState`. Streamlit caches only values
  returned normally: when the body raises, nothing is stored.
* The LangChain `ChatOpenAI` client is the record of the constructor
  arguments the source passes; `llm.invoke` is an uninterpreted function
  parameter of `ask_llm`, so the theorems quantify over every possible
  upstream behaviour (including mocks and failures).
* `ask_llm` additionally returns the list of message lists passed to
  `invoke`, in call order, so that "exactly one request with exactly these
  two messages" is a provable statement about the embedding.
-/

/-- Record of the constructor arguments of `ChatOpenAI(model=..., temperature=..., api_key=...)`
at `src/app.py:49-53`. -/
structure ChatOpenAI where
  model : String
  temperature : Float
  api_key : String

/-- A LangChain chat message: `SystemMessage(content=...)` or `HumanMessage(content=...)`. -/
inductive Message where
  | system : String → Message
  | human : String → Message
deriving DecidableEq

/-- The upstream response object; the source reads only its `.content` field. -/
structure ChatResponse where
  content : String
deriving DecidableEq

/-- The two ordered credential sources read by `get_api_key`:
the `OPENAI_API_KEY` environment variable (after `load_dotenv()`) and the
`OPENAI_API_KEY` entry of `st.secrets`. -/
structure CredEnv where
  envKey : Option String
  secrets : Option String

/-- The process-wide `@st.cache_resource` slot for the zero-argument `get_llm`. -/
structure ProcState where
  cache : Option ChatOpenAI

/-- Python truthiness of an `Optional[str]`: `None` and `""` are falsy.
This is the test `if key:` at `src/app.py:26`. -/
def truthy : Option String → Bool
  | some s => s ≠ ""
  | none => false

/-- The `ValueError` message raised at `src/app.py:34-38` when no credential
is found in either source (the three adjacent Python string literals
concatenate). -/
def missingKeyMessage : String :=
  "OPENAI_API_KEY が見つかりません。\n" ++
  ".env に OPENAI_API_KEY=... を書くか、" ++
  "デプロイ時はStreamlitのSecretsにOPENAI_API_KEYを設定してください。"

/-- Embedding of `get_api_key` (`src/app.py:14-38`): try the environment
variable first (`if key: return key`), then membership in `st.secrets`,
else raise `ValueError` with the remediation message. -/
def get_api_key (e : CredEnv) : Except String String :=
  if truthy e.envKey then Except.ok (e.envKey.getD "")
  else
    match e.secrets with
    | some v => Except.ok v
    | none => Except.error missingKeyMessage

/-- Embedding of `get_llm` (`src/app.py:41-54`) together with the
`@st.cache_resource` semantics: on a cache hit return the stored client
unchanged; on a miss run `get_api_key`, construct the `ChatOpenAI` client
and store it; when `get_api_key` raises, the exception propagates and the
cache is left untouched. -/
def get_llm (e : CredEnv) (s : ProcState) : Except String ChatOpenAI × ProcState :=
  match s.cache with
  | some llm => (Except.ok llm, s)
  | none =>
    match get_api_key e with
    | Except.ok api_key =>
      let llm : ChatOpenAI := { model := "gpt-4o-mini", temperature := 0.4, api_key := api_key }
      (Except.ok llm, { cache := some llm })
    | Except.error msg => (Except.error msg, s)

/-- Embedding of `build_system_prompt` (`src/app.py:57-81`): two named
personas matched against string literals, with a fallthrough default
(adjacent Python string literals concatenate). -/
def build_system_prompt (expert_choice : String) : String :=
  if expert_choice = "医療コンサルタント" then
    "あなたは病院経営と臨床現場の両方に詳しい医療コンサルタントです。" ++
    "医療安全、現場オペレーション、人員配置、患者説明のリスク管理について、" ++
    "現実的で実行可能なアドバイスを提示してください。" ++
    "専門用語は使ってもよいですが、必要に応じて平易な説明も加えてください。"
  else if expert_choice = "スタートアップ経営アドバイザー" then
    "あなたはシード〜シリーズA段階のスタートアップ経営アドバイザーです。" ++
    "採用、資金繰り、事業の優先順位付け、プロダクトの絞り込み、" ++
    "チームマネジメントなどについて、明日から動ける具体的な助言をしてください。" ++
    "机上の空論ではなく、実務に落とし込んでください。"
  else
    "あなたは丁寧で誠実な専門家アシスタントです。" ++
    "ユーザーの質問に対し、わかりやすく・実用的に回答してください。"

/-- Embedding of `ask_llm` (`src/app.py:84-106`): obtain the client via
`get_llm`, build the system prompt, assemble the two-message request,
invoke the client once, and return `response.content`. The third component
of the result is the list of requests passed to `invoke`, in call order
(empty when `get_llm` raised before any call). -/
def ask_llm (invoke : ChatOpenAI → List Message → Except String ChatResponse)
    (e : CredEnv) (s : ProcState) (user_input expert_choice : String) :
    Except String String × ProcState × List (List Message) :=
  match get_llm e s with
  | (Except.error msg, s2) => (Except.error msg, s2, [])
  | (Except.ok llm, s2) =>
    let system_prompt := build_system_prompt expert_choice
    let messages := [Message.system system_prompt, Message.human user_input]
    ((invoke llm messages).map ChatResponse.content, s2, [messages])

/-- A concrete client record, as `get_llm` constructs it from the key `sk-test`. -/
def llm0 : ChatOpenAI :=
  { model := "gpt-4o-mini", temperature := 0.4, api_key := "sk-test" }

/-- A credential environment holding the key only in the environment variable. -/
def e0 : CredEnv := { envKey := some "sk-test", secrets := none }

/-- A process state whose cache already holds `llm0`. -/
def s0 : ProcState := { cache := some llm0 }

/-- A mock upstream client that always answers with the fixed text `OK`. -/
def mockOK : ChatOpenAI → List Message → Except String ChatResponse :=
  fun _ _ => Except.ok { content := "OK" }

/-- A mock upstream client that always raises with a fixed diagnostic text. -/
def mockFail : ChatOpenAI → List Message → Except String ChatResponse :=
  fun _ _ => Except.error "upstream boom: quota exceeded"

/-- Helper: a successful `get_llm` call leaves the returned client in the cache. -/
theorem get_llm_cache_of_ok (e : CredEnv) (s : ProcState) (llm : ChatOpenAI)
    (s2 : ProcState) (h : get_llm e s = (Except.ok llm, s2)) :
    s2.cache = some llm := by
  unfold get_llm at h
  cases hc : s.cache with
  | some l =>
    rw [hc] at h
    obtain ⟨h1, h2⟩ := Prod.mk.injEq .. ▸ h
    subst h2
    rw [hc, Except.ok.injEq] at *
    simp_all
  | none =>
    rw [hc] at h
    cases hk : get_api_key e with
    | ok k =>
      rw [hk] at h
      simp only [Prod.mk.injEq] at h
      obtain ⟨h1, h2⟩ := h
      rw [← h2, ← Except.ok.injEq .. |>.mp h1]
    | error m => rw [hk] at h; simp_all

/-- Helper: on a cache hit `get_llm` returns the cached client and an unchanged state. -/
theorem get_llm_of_cached (e : CredEnv) (s : ProcState) (llm : ChatOpenAI)
    (h : s.cache = some llm) : get_llm e s = (Except.ok llm, s) := by
  unfold get_llm
  rw [h]

/-- C1: for every `user_input` and selector, when `get_llm` yields a client,
`ask_llm` passes `invoke` exactly one request of exactly two messages — the
system message `build_system_prompt selector` first, the user message
`user_input` verbatim second — and returns exactly the `content` field of
the client's response. -/
theorem ask_llm_request_and_result
    (invoke : ChatOpenAI → List Message → Except String ChatResponse)
    (e : CredEnv) (s : ProcState) (user_input expert_choice : String)
    (llm : ChatOpenAI) (s2 : ProcState)
    (h : get_llm e s = (Except.ok llm, s2)) :
    ask_llm invoke e s user_input expert_choice =
      ((invoke llm [Message.system (build_system_prompt expert_choice),
                    Message.human user_input]).map ChatResponse.content,
       s2,
       [[Message.system (build_system_prompt expert_choice), Message.human user_input]]) := by
  unfold ask_llm
  rw [h]

/-- C1 witness: with a mock client returning the fixed text `OK`,
`ask_llm "hello" 医療コンサルタント` returns exactly `OK`, and the single
request passed to the mock is the medical-consultant instruction followed
by `hello`. -/
theorem ask_llm_request_and_result_witness :
    ask_llm mockOK e0 s0 "hello" "医療コンサルタント" =
      (Except.ok "OK", s0,
       [[Message.system (build_system_prompt "医療コンサルタント"), Message.human "hello"]]) := by
  have h := ask_llm_request_and_result mockOK e0 s0 "hello" "医療コンサルタント" llm0 s0 rfl
  simpa [mockOK] using h

/-- C2: `build_system_prompt` (a total Lean function, hence pure and
deterministic with no failure path) returns a non-empty string on the two
named personas, on an unrecognized value and on the empty string; the two
named personas yield distinct fixed strings; and every unrecognized input,
the empty string included, yields one and the same default string. -/
theorem build_system_prompt_total_cases :
    build_system_prompt "医療コンサルタント" ≠ "" ∧
    build_system_prompt "スタートアップ経営アドバイザー" ≠ "" ∧
    build_system_prompt "unrecognized persona" ≠ "" ∧
    build_system_prompt "" ≠ "" ∧
    build_system_prompt "医療コンサルタント" ≠ build_system_prompt "スタートアップ経営アドバイザー" ∧
    (∀ (sel : String), sel ≠ "医療コンサルタント" → sel ≠ "スタートアップ経営アドバイザー" →
      build_system_prompt sel = build_system_prompt "") := by
  refine ⟨by decide, by decide, by decide, by decide, by decide, ?_⟩
  intro sel h1 h2
  simp [build_system_prompt, h1, h2]

/-- C2 witness: the unrecognized selector `any other role` gets the same
default instruction as the empty selector. -/
theorem build_system_prompt_total_cases_witness :
    build_system_prompt "any other role" = build_system_prompt "" :=
  build_system_prompt_total_cases.2.2.2.2.2 "any other role" (by decide) (by decide)

/-- C3: credential resolution order — a non-empty environment value is
returned no matter what the secret store holds (the secret store is not
consulted: the result is the same for every `secrets` value); otherwise,
when the secret store holds the key, its value is returned. -/
theorem get_api_key_source_order :
    (∀ (k : String) (sec : Option String), k ≠ "" →
      get_api_key { envKey := some k, secrets := sec } = Except.ok k) ∧
    (∀ (ek : Option String) (v : String), truthy ek = false →
      get_api_key { envKey := ek, secrets := some v } = Except.ok v) := by
  constructor
  · intro k sec hk
    simp [get_api_key, truthy, hk]
  · intro ek v hek
    simp [get_api_key, hek]

/-- C3 witness: with `sk-env` in the environment and a different value in
the secret store, resolution returns the environment value. -/
theorem get_api_key_source_order_witness :
    get_api_key { envKey := some "sk-env", secrets := some "sk-secret" } =
      Except.ok "sk-env" :=
  get_api_key_source_order.1 "sk-env" (some "sk-secret") (by decide)

set_option maxRecDepth 4096 in
/-- C4: with no non-empty environment value and no secret-store entry,
`get_api_key` raises (returns no value) with the fixed remediation message,
which names both the `.env` file and the Streamlit `Secrets` setting to
configure. -/
theorem get_api_key_missing_credential :
    (∀ (ek : Option String), truthy ek = false →
      get_api_key { envKey := ek, secrets := none } = Except.error missingKeyMessage) ∧
    List.IsInfix ".env".data missingKeyMessage.data ∧
    List.IsInfix "Secrets".data missingKeyMessage.data := by
  refine ⟨?_, by decide, by decide⟩
  intro ek hek
  simp [get_api_key, hek]

/-- C4 witness: with both sources empty, resolution raises the remediation message. -/
theorem get_api_key_missing_credential_witness :
    get_api_key { envKey := none, secrets := none } = Except.error missingKeyMessage :=
  get_api_key_missing_credential.1 none (by decide)

/-- C5 counterexample: `get_api_key` contains no format validation at all.
With a credential of the wrong prefix shape (`not-a-valid-token`, which
does not start with `sk-`) as the only available value, resolution returns
the malformed value successfully instead of failing. -/
theorem get_api_key_no_format_validation_cex :
    ("sk-".data.isPrefixOf "not-a-valid-token".data) = false ∧
    get_api_key { envKey := some "not-a-valid-token", secrets := none } =
      Except.ok "not-a-valid-token" := by
  constructor
  · decide
  · simp [get_api_key, truthy]

/-- C5 amended: the code implements no strict variant — resolution applies
no token-prefix validation and returns every resolved non-empty value
as-is, whether or not it starts with `sk-`; no `InvalidCredentialFormat`
failure exists in the code. -/
theorem get_api_key_returns_any_shape (k : String) (sec : Option String)
    (hk : k ≠ "") :
    get_api_key { envKey := some k, secrets := sec } = Except.ok k := by
  simp [get_api_key, truthy, hk]

/-- C5 amended witness: the wrong-prefix value `AKIA-malformed` is resolved as-is. -/
theorem get_api_key_returns_any_shape_witness :
    get_api_key { envKey := some "AKIA-malformed", secrets := none } =
      Except.ok "AKIA-malformed" :=
  get_api_key_returns_any_shape "AKIA-malformed" none (by decide)

/-- C6: when the upstream client raises, `ask_llm` propagates the failure
with the original diagnostic text unchanged; the request trace is a single
request built from the given selector, so there is no retry and no
fallback persona or model, and no partial result is returned. -/
theorem ask_llm_propagates_upstream_error
    (invoke : ChatOpenAI → List Message → Except String ChatResponse)
    (e : CredEnv) (s : ProcState) (user_input expert_choice : String)
    (llm : ChatOpenAI) (s2 : ProcState) (err : String)
    (hllm : get_llm e s = (Except.ok llm, s2))
    (herr : invoke llm [Message.system (build_system_prompt expert_choice),
                        Message.human user_input] = Except.error err) :
    ask_llm invoke e s user_input expert_choice =
      (Except.error err, s2,
       [[Message.system (build_system_prompt expert_choice), Message.human user_input]]) := by
  unfold ask_llm
  rw [hllm]
  simp [herr, Except.map]

/-- C6 witness: a mock client raising `upstream boom: quota exceeded` makes
`ask_llm` fail with exactly that text after a single request. -/
theorem ask_llm_propagates_upstream_error_witness :
    ask_llm mockFail e0 s0 "hello" "医療コンサルタント" =
      (Except.error "upstream boom: quota exceeded", s0,
       [[Message.system (build_system_prompt "医療コンサルタント"), Message.human "hello"]]) :=
  ask_llm_propagates_upstream_error mockFail e0 s0 "hello" "医療コンサルタント"
    llm0 s0 "upstream boom: quota exceeded" rfl rfl

/-- C7: `get_llm` is memoized per process — after any successful call the
returned client sits in the cache, and every subsequent call, with any
credential environment whatsoever, returns that very instance and leaves
the state unchanged (so the client is constructed at most once and never
mutated after construction). -/
theorem get_llm_memoized (e : CredEnv) (s : ProcState) (llm : ChatOpenAI)
    (s2 : ProcState) (h : get_llm e s = (Except.ok llm, s2)) :
    s2.cache = some llm ∧
    ∀ (e2 : CredEnv), get_llm e2 s2 = (Except.ok llm, s2) := by
  have hc := get_llm_cache_of_ok e s llm s2 h
  exact ⟨hc, fun e2 => get_llm_of_cached e2 s2 llm hc⟩

/-- C7 witness: after a first construction from the environment key, a
second call with an empty credential environment still returns the same
cached instance. -/
theorem get_llm_memoized_witness :
    get_llm { envKey := none, secrets := none } { cache := some llm0 } =
      (Except.ok llm0, { cache := some llm0 }) :=
  (get_llm_memoized e0 { cache := none } llm0 { cache := some llm0 } rfl).2
    { envKey := none, secrets := none }

/-- C8: `ask_llm` applies no special-casing to blank input — for the empty
string and every whitespace-only string, it still assembles the two-message
request carrying that string verbatim as the user message, attempts the
completion call, and returns whatever the upstream client does. -/
theorem ask_llm_blank_input_no_special_case
    (invoke : ChatOpenAI → List Message → Except String ChatResponse)
    (e : CredEnv) (s : ProcState) (user_input expert_choice : String)
    (llm : ChatOpenAI) (s2 : ProcState)
    (_hblank : ∀ c ∈ user_input.data, c.isWhitespace)
    (hllm : get_llm e s = (Except.ok llm, s2)) :
    ask_llm invoke e s user_input expert_choice =
      ((invoke llm [Message.system (build_system_prompt expert_choice),
                    Message.human user_input]).map ChatResponse.content,
       s2,
       [[Message.system (build_system_prompt expert_choice), Message.human user_input]]) := by
  unfold ask_llm
  rw [hllm]

/-- C8 witness: called on the empty string, `ask_llm` still sends the
two-message request with the empty user message and returns the mock's answer. -/
theorem ask_llm_blank_input_no_special_case_witness :
    ask_llm mockOK e0 s0 "" "スタートアップ経営アドバイザー" =
      ((mockOK llm0 [Message.system (build_system_prompt "スタートアップ経営アドバイザー"),
                     Message.human ""]).map ChatResponse.content,
       s0,
       [[Message.system (build_system_prompt "スタートアップ経営アドバイザー"), Message.human ""]]) :=
  ask_llm_blank_input_no_special_case mockOK e0 s0 "" "スタートアップ経営アドバイザー"
    llm0 s0 (by simp) rfl

/-- C9: non-emptiness is checked only for the environment source — an empty
environment value falls through to the secret store, and an empty string
stored in the secret store is returned as the credential rather than
raising, with no shape or emptiness validation applied to it. -/
theorem get_api_key_secret_store_unvalidated :
    (∀ (v : String), get_api_key { envKey := some "", secrets := some v } = Except.ok v) ∧
    (∀ (ek : Option String), truthy ek = false →
      get_api_key { envKey := ek, secrets := some "" } = Except.ok "") := by
  constructor
  · intro v
    simp [get_api_key, truthy]
  · intro ek hek
    simp [get_api_key, hek]

/-- C9 witness: an empty environment value together with an empty-string
secret-store entry resolves to the empty string instead of raising. -/
theorem get_api_key_secret_store_unvalidated_witness :
    get_api_key { envKey := some "", secrets := some "" } = Except.ok "" :=
  get_api_key_secret_store_unvalidated.2 (some "") (by decide)

/-- C10: client-construction failure is atomic with respect to the cache —
when the cache is empty and credential resolution raises, `get_llm` raises
the same message and leaves the state (and hence the empty cache)
unchanged, and a later call against an environment where resolution now
succeeds constructs and caches the client from the new key. -/
theorem get_llm_failure_not_cached (e : CredEnv) (s : ProcState) (msg : String)
    (hs : s.cache = none) (he : get_api_key e = Except.error msg) :
    get_llm e s = (Except.error msg, s) ∧
    ∀ (e2 : CredEnv) (k : String), get_api_key e2 = Except.ok k →
      get_llm e2 s =
        (Except.ok { model := "gpt-4o-mini", temperature := 0.4, api_key := k },
         { cache := some { model := "gpt-4o-mini", temperature := 0.4, api_key := k } }) := by
  constructor
  · unfold get_llm
    rw [hs, he]
  · intro e2 k hk
    unfold get_llm
    rw [hs, hk]

/-- C10 witness: with both sources empty, `get_llm` raises the missing-key
message and caches nothing; retried after the key `sk-late` appears in the
environment, it succeeds from the very same (still empty) state. -/
theorem get_llm_failure_not_cached_witness :
    get_llm { envKey := none, secrets := none } { cache := none } =
        (Except.error missingKeyMessage, { cache := none }) ∧
    get_llm { envKey := some "sk-late", secrets := none } { cache := none } =
        (Except.ok { model := "gpt-4o-mini", temperature := 0.4, api_key := "sk-late" },
         { cache := some { model := "gpt-4o-mini", temperature := 0.4, api_key := "sk-late" } }) :=
  ⟨(get_llm_failure_not_cached { envKey := none, secrets := none } { cache := none }
      missingKeyMessage rfl rfl).1,
   (get_llm_failure_not_cached { envKey := none, secrets := none } { cache := none }
      missingKeyMessage rfl rfl).2 { envKey := some "sk-late", secrets := none } "sk-late" rfl⟩
